import Mathlib

/-!
Verification of the renderbackend service (src/server.js).

The service is shallowly embedded: the two database tables become lists of
records inside a `DB` state, each Express handler becomes a pure function
from the request body and the current state to a response and the next
state, and the `Math.random()` serial generator becomes an oracle stream
`gen : Nat -> String` passed to the issuance handler (the code draws from it
exactly as it draws from `Math.random`).  Postgres behaviour relevant to the
handlers is made explicit: the UNIQUE constraint on `generatedkeys.serial`
makes an insert of a colliding serial fail, `SELECT ... FOR UPDATE` in the
issuance handler serializes concurrent requests for the same registration
row, and `ROLLBACK` restores the state from the start of the transaction.
JavaScript falsiness of request fields (`if (!serial)`) is modelled by
`isMissing`, which treats both an absent field and an empty string as
missing.
-/

/-- A row of the `registrations` table (src/server.js lines 44-49, with the
`reason` column added by the migration at lines 53-65). -/
structure Registration where
  id : Nat
  robloxUsername : String
  discordUsername : String
  reason : String
  deriving DecidableEq, Repr

/-- A row of the `generatedkeys` table (src/server.js lines 67-74):
`registration_id` is a nullable reference, `serial` is UNIQUE. -/
structure SerialKey where
  id : Nat
  registrationId : Option Nat
  serial : String
  deriving DecidableEq, Repr

/-- The persistent state of the service: the two tables plus the SERIAL
sequences that supply fresh primary keys. -/
structure DB where
  registrations : List Registration
  keys : List SerialKey
  nextRegId : Nat
  nextKeyId : Nat
  deriving DecidableEq, Repr

/-- JavaScript falsiness of a request body field: `if (!x)` is taken both
when the field is absent and when it is the empty string. -/
def isMissing : Option String → Bool
  | none => true
  | some s => s.isEmpty

/-- Characters accepted by the Roblox username regex character class
`[a-zA-Z0-9_]` (src/server.js line 93). -/
def robloxChar (c : Char) : Bool :=
  c.isAlpha || c.isDigit || c == '_'

/-- Characters accepted by the Discord username regex character class
`[a-zA-Z0-9_.]` (src/server.js line 106). -/
def discordChar (c : Char) : Bool :=
  c.isAlpha || c.isDigit || c == '_' || c == '.'

/-- `validateRobloxUser` (src/server.js lines 88-99): the test of the
anchored regex `^[a-zA-Z0-9_]{3,20}$` against the whole string. -/
def validateRobloxUser (s : String) : Bool :=
  decide (3 ≤ s.length) && decide (s.length ≤ 20) && s.toList.all robloxChar

/-- `validateDiscordUser` (src/server.js lines 102-112): the test of the
anchored regex `^[a-zA-Z0-9_.]{2,32}$` against the whole string. -/
def validateDiscordUser (s : String) : Bool :=
  decide (2 ≤ s.length) && decide (s.length ≤ 32) && s.toList.all discordChar

/-- Response of POST /api/validate-users (src/server.js lines 115-170). -/
inductive RegisterResult where
  /-- 400, body `error: Missing required fields`. -/
  | missingFields : RegisterResult
  /-- 400, body `error: Invalid usernames`. -/
  | invalidUsernames : RegisterResult
  /-- 200, body echoes the persisted registration row. -/
  | created (r : Registration) : RegisterResult
  /-- 500, body `error: Internal server error`. -/
  | internalError : RegisterResult
  deriving DecidableEq, Repr

/-- Handler of POST /api/validate-users (src/server.js lines 115-170): check
all three fields are present, run both validators, then INSERT the
registration row. -/
def validateUsers (roblox discord reason : Option String) (db : DB) :
    RegisterResult × DB :=
  if isMissing roblox || isMissing discord || isMissing reason then
    (.missingFields, db)
  else
    let r := roblox.getD ""
    let d := discord.getD ""
    let why := reason.getD ""
    if !validateRobloxUser r || !validateDiscordUser d then
      (.invalidUsernames, db)
    else
      let reg : Registration := ⟨db.nextRegId, r, d, why⟩
      (.created reg,
       { db with registrations := db.registrations ++ [reg],
                 nextRegId := db.nextRegId + 1 })

/-- Response of POST /api/check-serial and POST /api/validate-download
(src/server.js lines 194-216 and 244-266): both either reject a missing
field with 400 or answer the EXISTS query with a boolean flag (named
`exists` by the first endpoint and `valid` by the second). -/
inductive SerialQueryResult where
  /-- 400, body `error: Serial key is required`. -/
  | badRequest : SerialQueryResult
  /-- 200, body carries the boolean answer of the EXISTS query. -/
  | flag (b : Bool) : SerialQueryResult
  deriving DecidableEq, Repr

/-- Handler of POST /api/check-serial (src/server.js lines 194-216). -/
def checkSerial (serial : Option String) (db : DB) : SerialQueryResult :=
  match serial with
  | none => .badRequest
  | some s =>
    if s.isEmpty then .badRequest
    else .flag (db.keys.any (fun k => k.serial == s))

/-- Handler of POST /api/validate-download (src/server.js lines 244-266):
the same missing-field check and the same EXISTS query as /api/check-serial,
answered under the field name `valid`. -/
def validateDownload (serial : Option String) (db : DB) : SerialQueryResult :=
  match serial with
  | none => .badRequest
  | some s =>
    if s.isEmpty then .badRequest
    else .flag (db.keys.any (fun k => k.serial == s))

/-- Response of POST /api/save-serial (src/server.js lines 219-241). -/
inductive SaveResult where
  /-- 400, body `error: Serial key is required`. -/
  | missingSerial : SaveResult
  /-- 200, body echoes the persisted key row. -/
  | saved (k : SerialKey) : SaveResult
  /-- 500, body `error: Internal server error` (the UNIQUE constraint on
  `serial` makes the INSERT throw; the catch block answers generically). -/
  | internalError : SaveResult
  deriving DecidableEq, Repr

/-- Handler of POST /api/save-serial (src/server.js lines 219-241): INSERT a
key row with a null `registration_id`; a colliding serial violates the
UNIQUE constraint and is answered as a generic 500. -/
def saveSerial (serial : Option String) (db : DB) : SaveResult × DB :=
  match serial with
  | none => (.missingSerial, db)
  | some s =>
    if s.isEmpty then (.missingSerial, db)
    else if db.keys.any (fun k => k.serial == s) then
      (.internalError, db)
    else
      let key : SerialKey := ⟨db.nextKeyId, none, s⟩
      (.saved key,
       { db with keys := db.keys ++ [key], nextKeyId := db.nextKeyId + 1 })

/-- Response of POST /api/generate-serial (src/server.js lines 269-343). -/
inductive IssueResult where
  /-- 400, body `error: Roblox username is required`. -/
  | missingUsername : IssueResult
  /-- 404, body `error: Registration not found` (after ROLLBACK). -/
  | registrationNotFound : IssueResult
  /-- 400, body `error: Serial key already generated for this registration`
  together with `serialKey:` the existing serial (after ROLLBACK). -/
  | alreadyGenerated (serial : String) : IssueResult
  /-- 200, body `success: true, serialKey:` the new serial (after COMMIT). -/
  | issued (serial : String) : IssueResult
  /-- 500, body `error: Internal server error` (any storage error is rolled
  back, rethrown and answered generically by the outer catch). -/
  | internalError : IssueResult
  deriving DecidableEq, Repr

/-- HTTP status attached to each issuance response by the handler. -/
def IssueResult.status : IssueResult → Nat
  | .missingUsername => 400
  | .registrationNotFound => 404
  | .alreadyGenerated _ => 400
  | .issued _ => 200
  | .internalError => 500

/-- Whether an issuance response is the success response (`res.json` with
`success: true`, status 200). -/
def IssueResult.isSuccess : IssueResult → Bool
  | .issued _ => true
  | _ => false

/-- The serial value carried in the response body, when one is: the
`serialKey` field of both the success response and the
already-generated 400 response. -/
def IssueResult.serialValue : IssueResult → Option String
  | .alreadyGenerated s => some s
  | .issued s => some s
  | _ => none

/-- Handler of POST /api/generate-serial (src/server.js lines 269-343).
`gen` is the random oracle: draw `n` of `Math.random().toString(36)...`
yields `gen n`; the handler concatenates draws 0 and 1 after the literal
prefix exactly as line 314 does, so one call consumes draws 0 and 1 and
makes a single insert attempt.  The SELECT ... FOR UPDATE, the ROLLBACK
paths and the UNIQUE-violation path follow the source line by line: every
non-commit exit returns the state unchanged. -/
def issueSerial (gen : Nat → String) (robloxUsername : Option String)
    (db : DB) : IssueResult × DB :=
  match robloxUsername with
  | none => (.missingUsername, db)
  | some uname =>
    if uname.isEmpty then (.missingUsername, db)
    else
      match db.registrations.find? (fun r => r.robloxUsername == uname) with
      | none => (.registrationNotFound, db)
      | some reg =>
        match db.keys.find? (fun k => k.registrationId == some reg.id) with
        | some k => (.alreadyGenerated k.serial, db)
        | none =>
          let serialKey := "scriptxserial_" ++ gen 0 ++ gen 1
          if db.keys.any (fun k => k.serial == serialKey) then
            (.internalError, db)
          else
            let key : SerialKey := ⟨db.nextKeyId, some reg.id, serialKey⟩
            (.issued serialKey,
             { db with keys := db.keys ++ [key],
                       nextKeyId := db.nextKeyId + 1 })

/-- Running a batch of issuance requests for the same username one after the
other, each with its own random oracle.  This is the semantics of N
concurrent requests under the row-level `FOR UPDATE` lock of line 286: the
lock admits one transaction at a time for the matched registration row, so
every interleaving is observationally a sequential order of the handlers. -/
def runIssuance (gens : List (Nat → String)) (u : Option String) (db : DB) :
    List IssueResult × DB :=
  match gens with
  | [] => ([], db)
  | g :: rest =>
    let step := issueSerial g u db
    let next := runIssuance rest u step.2
    (step.1 :: next.1, next.2)

/-- Health check response (src/server.js lines 173-191): on success the
storage timestamp is echoed; on failure the response carries
`error: error.message`, i.e. the underlying storage error text. -/
structure HealthResponse where
  status : Nat
  database : String
  timestamp : Option String
  errorMsg : Option String
  deriving DecidableEq, Repr

/-- Handler of GET /health (src/server.js lines 173-191): the storage
outcome is either the `SELECT NOW()` timestamp or an error with a message,
and the error branch writes `error.message` into the response body. -/
def healthHandler (dbResult : Except String String) : HealthResponse :=
  match dbResult with
  | .ok ts => ⟨200, "connected", some ts, none⟩
  | .error e => ⟨500, "disconnected", none, some e⟩

/-- The response every /api endpoint sends from its catch block
(src/server.js lines 168, 214, 239, 264, 341): status 500 with the fixed
body `error: Internal server error`; the caught error `e` is only logged,
never written into the response. -/
def apiErrorResponse (e : String) : Nat × String :=
  let _logged := e
  (500, "Internal server error")

/-- The key row echoed by a successful /api/save-serial response, if any. -/
def SaveResult.savedKey : SaveResult → Option SerialKey
  | .saved k => some k
  | _ => none

/-- Character class `[A-Za-z0-9_]` of the published Roblox pattern, written
as primitive character ranges. -/
def robloxPatternChar (c : Char) : Prop :=
  ('A' ≤ c ∧ c ≤ 'Z') ∨ ('a' ≤ c ∧ c ≤ 'z') ∨ ('0' ≤ c ∧ c ≤ '9') ∨ c = '_'

/-- Character class `[A-Za-z0-9_.]` of the published Discord pattern,
written as primitive character ranges. -/
def discordPatternChar (c : Char) : Prop :=
  ('A' ≤ c ∧ c ≤ 'Z') ∨ ('a' ≤ c ∧ c ≤ 'z') ∨ ('0' ≤ c ∧ c ≤ '9') ∨
    c = '_' ∨ c = '.'

/-- The published Roblox pattern `^[A-Za-z0-9_]{3,20}$`: whole-string match,
between 3 and 20 characters, all from the class. -/
def matchesRobloxPattern (s : String) : Prop :=
  3 ≤ s.length ∧ s.length ≤ 20 ∧ ∀ c ∈ s.toList, robloxPatternChar c

/-- The published Discord pattern `^[A-Za-z0-9_.]{2,32}$`. -/
def matchesDiscordPattern (s : String) : Prop :=
  2 ≤ s.length ∧ s.length ≤ 32 ∧ ∀ c ∈ s.toList, discordPatternChar c

/-- Invariant I1: every non-null `registration_id` is referenced by at most
one row of `generatedkeys`. -/
def invariantI1 (db : DB) : Prop :=
  ∀ rid : Nat, (db.keys.countP (fun k => k.registrationId == some rid)) ≤ 1

instance (db : DB) : Decidable (invariantI1 db) := by
  unfold invariantI1
  exact decidable_of_iff
    (∀ k ∈ db.keys, k.registrationId.all
      (fun rid =>
        decide (db.keys.countP (fun j => j.registrationId == some rid) ≤ 1))
      = true)
    (by
      constructor
      · intro h rid
        by_cases hex : ∃ k ∈ db.keys, k.registrationId = some rid
        · obtain ⟨k, hk, hkr⟩ := hex
          have := h k hk
          rw [hkr] at this
          simpa using this
        · push_neg at hex
          have hz : db.keys.countP (fun j => j.registrationId == some rid) = 0 := by
            rw [List.countP_eq_zero]
            intro j hj
            simp only [beq_iff_eq]
            exact hex j hj
          omega
      · intro h k hk
        cases hkr : k.registrationId with
        | none => simp [Option.all]
        | some rid => simpa using h rid)

/-! ### Helper lemmas -/

theorem robloxChar_iff (c : Char) : robloxChar c = true ↔ robloxPatternChar c := by
  simp only [robloxChar, Char.isAlpha, Char.isUpper, Char.isLower, Char.isDigit,
    robloxPatternChar, Bool.or_eq_true, Bool.and_eq_true, decide_eq_true_eq,
    ge_iff_le, Char.le_def, beq_iff_eq]
  simp only [show ('A').val = (65 : UInt32) from rfl, show ('Z').val = (90 : UInt32) from rfl,
    show ('a').val = (97 : UInt32) from rfl, show ('z').val = (122 : UInt32) from rfl,
    show ('0').val = (48 : UInt32) from rfl, show ('9').val = (57 : UInt32) from rfl]
  tauto

theorem discordChar_iff (c : Char) : discordChar c = true ↔ discordPatternChar c := by
  simp only [discordChar, Char.isAlpha, Char.isUpper, Char.isLower, Char.isDigit,
    discordPatternChar, Bool.or_eq_true, Bool.and_eq_true, decide_eq_true_eq,
    ge_iff_le, Char.le_def, beq_iff_eq]
  simp only [show ('A').val = (65 : UInt32) from rfl, show ('Z').val = (90 : UInt32) from rfl,
    show ('a').val = (97 : UInt32) from rfl, show ('z').val = (122 : UInt32) from rfl,
    show ('0').val = (48 : UInt32) from rfl, show ('9').val = (57 : UInt32) from rfl]
  tauto

/-! ### Claim theorems -/

/-- C6: `validateRobloxUser s` is true exactly when `s` matches
`^[A-Za-z0-9_]{3,20}$` and `validateDiscordUser s` is true exactly when `s`
matches `^[A-Za-z0-9_.]{2,32}$`; both are total Lean functions (pure, never
raising), and validating the two handles is order-insensitive. -/
theorem validators_match_published_patterns :
    (∀ s : String, validateRobloxUser s = true ↔ matchesRobloxPattern s) ∧
    (∀ s : String, validateDiscordUser s = true ↔ matchesDiscordPattern s) ∧
    (∀ r d : String,
      (validateRobloxUser r && validateDiscordUser d)
        = (validateDiscordUser d && validateRobloxUser r)) := by
  refine ⟨fun s => ?_, fun s => ?_, fun r d => Bool.and_comm _ _⟩
  · simp only [validateRobloxUser, matchesRobloxPattern, Bool.and_eq_true,
      decide_eq_true_eq, List.all_eq_true, robloxChar_iff, and_assoc]
  · simp only [validateDiscordUser, matchesDiscordPattern, Bool.and_eq_true,
      decide_eq_true_eq, List.all_eq_true, discordChar_iff, and_assoc]

/-- C10: the check-serial and validate-download handlers compute the
identical result on every request and key-store state: the same
missing-field rejection and the same boolean answer of the EXISTS query
(surfaced as `exists` by the former and `valid` by the latter). -/
theorem check_serial_eq_validate_download :
    ∀ (serial : Option String) (db : DB),
      checkSerial serial db = validateDownload serial db :=
  fun _ _ => rfl

/-- C9 counterexample: the health endpoint's failure response embeds the
underlying storage error message, so two runs that fail with different
internal details produce different caller-visible responses — the claim
that no error response ever leaks storage internals is false. -/
theorem health_error_response_leaks_details :
    healthHandler (.error "connection timeout") ≠
      healthHandler (.error "connection refused") ∧
    (healthHandler (.error "connection timeout")).errorMsg =
      some "connection timeout" := by
  decide

/-- C9 amended: every /api endpoint answers a storage failure with the same
generic 500 response whatever the internal error details were, but the
/health endpoint writes the underlying error message into its 500
response body. -/
theorem api_storage_errors_are_generic (e1 e2 : String) :
    apiErrorResponse e1 = apiErrorResponse e2 ∧
    apiErrorResponse e1 = (500, "Internal server error") ∧
    (healthHandler (.error e1)).errorMsg = some e1 ∧
    (healthHandler (.error e1)).status = 500 :=
  ⟨rfl, rfl, rfl, rfl⟩

/-- C4: whenever the issuance handler answers anything other than its
success response — missing field, registration not found, key already
present, or the storage error raised by a duplicate generated serial — the
transaction is rolled back and the persisted state after the call equals
the state before it. -/
theorem issuance_error_preserves_state (gen : Nat → String)
    (u : Option String) (db : DB)
    (h : ((issueSerial gen u db).1).isSuccess = false) :
    (issueSerial gen u db).2 = db := by
  cases u with
  | none => rfl
  | some s =>
    by_cases hs : s.isEmpty = true
    · simp [issueSerial, hs]
    · cases hreg : db.registrations.find? (fun r => r.robloxUsername == s) with
      | none => simp [issueSerial, hs, hreg]
      | some reg =>
        cases hkey : db.keys.find? (fun k => k.registrationId == some reg.id) with
        | some k => simp [issueSerial, hs, hreg, hkey]
        | none =>
          by_cases hdup :
              (db.keys.any fun k =>
                k.serial == "scriptxserial_" ++ gen 0 ++ gen 1) = true
          · simp [issueSerial, hs, hreg, hkey, hdup]
          · simp [issueSerial, hs, hreg, hkey, hdup,
              IssueResult.isSuccess] at h

/-- C4 witness: a concrete erroring call (unknown username) leaves the
concrete state unchanged. -/
theorem issuance_error_preserves_state_witness :
    (issueSerial (fun _ => "x") (some "ghost") ⟨[], [], 1, 1⟩).2 = ⟨[], [], 1, 1⟩ :=
  issuance_error_preserves_state (fun _ => "x") (some "ghost") ⟨[], [], 1, 1⟩
    (by decide)

theorem issueSerial_existing_key (gen : Nat → String) (u : String) (db : DB)
    (reg : Registration) (k : SerialKey)
    (hne : u.isEmpty = false)
    (hreg : db.registrations.find? (fun r => r.robloxUsername == u) = some reg)
    (hkey : db.keys.find? (fun j => j.registrationId == some reg.id) = some k) :
    issueSerial gen (some u) db = (.alreadyGenerated k.serial, db) := by
  simp [issueSerial, hne, hreg, hkey]

theorem issueSerial_fresh_key (gen : Nat → String) (u : String) (db : DB)
    (reg : Registration)
    (hne : u.isEmpty = false)
    (hreg : db.registrations.find? (fun r => r.robloxUsername == u) = some reg)
    (hkey : db.keys.find? (fun j => j.registrationId == some reg.id) = none)
    (hfresh : (db.keys.any fun j =>
      j.serial == "scriptxserial_" ++ gen 0 ++ gen 1) = false) :
    issueSerial gen (some u) db =
      (.issued ("scriptxserial_" ++ gen 0 ++ gen 1),
       { db with
          keys := db.keys ++
            [⟨db.nextKeyId, some reg.id, "scriptxserial_" ++ gen 0 ++ gen 1⟩],
          nextKeyId := db.nextKeyId + 1 }) := by
  simp [issueSerial, hne, hreg, hkey, hfresh]

theorem issueSerial_issued_inv (g : Nat → String) (u : String) (db : DB)
    (s : String)
    (h : (issueSerial g (some u) db).1 = .issued s) :
    u.isEmpty = false ∧
    s = "scriptxserial_" ++ g 0 ++ g 1 ∧
    (db.keys.any fun j => j.serial == s) = false ∧
    ∃ reg, db.registrations.find? (fun r => r.robloxUsername == u) = some reg ∧
      db.keys.find? (fun j => j.registrationId == some reg.id) = none ∧
      (issueSerial g (some u) db).2 =
        { db with keys := db.keys ++ [⟨db.nextKeyId, some reg.id, s⟩],
                  nextKeyId := db.nextKeyId + 1 } := by
  by_cases hs : u.isEmpty = true
  · simp [issueSerial, hs] at h
  · cases hreg : db.registrations.find? (fun r => r.robloxUsername == u) with
    | none => simp [issueSerial, hs, hreg] at h
    | some reg =>
      cases hkey : db.keys.find? (fun j => j.registrationId == some reg.id) with
      | some k => simp [issueSerial, hs, hreg, hkey] at h
      | none =>
        by_cases hdup :
            (db.keys.any fun j =>
              j.serial == "scriptxserial_" ++ g 0 ++ g 1) = true
        · simp [issueSerial, hs, hreg, hkey, hdup] at h
        · have hserial : "scriptxserial_" ++ g 0 ++ g 1 = s := by
            simpa [issueSerial, hs, hreg, hkey, hdup] using h
          have hc : (db.keys.any fun j => j.serial == s) = false := by
            rw [← hserial]; simpa using hdup
          have hdb : (issueSerial g (some u) db).2 =
              { db with keys := db.keys ++ [⟨db.nextKeyId, some reg.id, s⟩],
                        nextKeyId := db.nextKeyId + 1 } := by
            rw [← hserial]; simp [issueSerial, hs, hreg, hkey, hdup]
          exact ⟨by simpa using hs, hserial.symm, hc,
            ⟨reg, rfl, hkey, hdb⟩⟩

/-- C7: issuing a serial for a robloxUsername that matches no registration
answers 404 RegistrationNotFound, and the state after the rolled-back
transaction equals the state before: no key row is created. -/
theorem issue_for_unknown_registration (gen : Nat → String) (u : String)
    (db : DB)
    (hne : u.isEmpty = false)
    (habs : ∀ r ∈ db.registrations, r.robloxUsername ≠ u) :
    issueSerial gen (some u) db = (.registrationNotFound, db) ∧
    ((issueSerial gen (some u) db).1).status = 404 := by
  have hfind : db.registrations.find? (fun r => r.robloxUsername == u) = none := by
    rw [List.find?_eq_none]
    intro r hr
    simpa using habs r hr
  constructor
  · simp [issueSerial, hne, hfind]
  · simp [issueSerial, hne, hfind, IssueResult.status]

/-- C7 witness: a concrete call with an unregistered username. -/
theorem issue_for_unknown_registration_witness :
    issueSerial (fun _ => "x") (some "ghost")
        ⟨[⟨1, "Player_1", "user.name", "testing"⟩], [], 2, 1⟩
      = (.registrationNotFound,
         ⟨[⟨1, "Player_1", "user.name", "testing"⟩], [], 2, 1⟩) ∧
    ((issueSerial (fun _ => "x") (some "ghost")
        ⟨[⟨1, "Player_1", "user.name", "testing"⟩], [], 2, 1⟩).1).status = 404 :=
  issue_for_unknown_registration (fun _ => "x") "ghost"
    ⟨[⟨1, "Player_1", "user.name", "testing"⟩], [], 2, 1⟩
    (by decide) (by decide)

/-- C8: a serial accepted by the unlinked-save path is afterwards reported
present by both the check-serial handler and the validate-download handler,
queried with the exact same serial string. -/
theorem saved_serial_found_by_both_checks (s : String) (db : DB)
    (k : SerialKey)
    (h : (saveSerial (some s) db).1 = .saved k) :
    checkSerial (some s) (saveSerial (some s) db).2 = .flag true ∧
    validateDownload (some s) (saveSerial (some s) db).2 = .flag true := by
  by_cases hs : s.isEmpty = true
  · simp [saveSerial, hs] at h
  · by_cases hdup : (db.keys.any fun j => j.serial == s) = true
    · simp [saveSerial, hs, hdup] at h
    · have h2 : (saveSerial (some s) db).2 =
          { db with keys := db.keys ++ [⟨db.nextKeyId, none, s⟩],
                    nextKeyId := db.nextKeyId + 1 } := by
        simp [saveSerial, hs, hdup]
      rw [h2]
      constructor <;> simp [checkSerial, validateDownload, hs]

/-- C8 witness: a concrete serial saved into a concrete store is found by
both checks. -/
theorem saved_serial_found_by_both_checks_witness :
    checkSerial (some "key_1") (saveSerial (some "key_1") ⟨[], [], 1, 1⟩).2
      = .flag true ∧
    validateDownload (some "key_1") (saveSerial (some "key_1") ⟨[], [], 1, 1⟩).2
      = .flag true :=
  saved_serial_found_by_both_checks "key_1" ⟨[], [], 1, 1⟩ ⟨1, none, "key_1"⟩
    (by decide)

/-- C1 counterexample: for a registration that already has a serial key, the
issuance handler answers the already-generated response, which carries HTTP
status 400 and is not the success response — the existing key is returned
inside an error response, not a success response as the claim states. -/
theorem issue_existing_key_counterexample :
    (issueSerial (fun _ => "z") (some "Player_1")
        ⟨[⟨1, "Player_1", "user.name", "testing"⟩],
         [⟨1, some 1, "scriptxserial_abc"⟩], 2, 2⟩).1
      = .alreadyGenerated "scriptxserial_abc" ∧
    ((issueSerial (fun _ => "z") (some "Player_1")
        ⟨[⟨1, "Player_1", "user.name", "testing"⟩],
         [⟨1, some 1, "scriptxserial_abc"⟩], 2, 2⟩).1).isSuccess = false ∧
    ((issueSerial (fun _ => "z") (some "Player_1")
        ⟨[⟨1, "Player_1", "user.name", "testing"⟩],
         [⟨1, some 1, "scriptxserial_abc"⟩], 2, 2⟩).1).status = 400 := by
  decide

/-- C1 amended: after a successful issuance, a second issuance call for the
same username answers the already-generated 400 response whose body carries
the identical serial value, leaves the state unchanged (so no second key
row is created), and the key store holds exactly one row with that
serial. -/
theorem issue_twice_returns_same_serial (g g2 : Nat → String) (u : String)
    (db : DB) (s : String)
    (h : (issueSerial g (some u) db).1 = .issued s) :
    (issueSerial g2 (some u) (issueSerial g (some u) db).2).1
      = .alreadyGenerated s ∧
    (issueSerial g2 (some u) (issueSerial g (some u) db).2).2
      = (issueSerial g (some u) db).2 ∧
    ((issueSerial g (some u) db).2).keys.countP (fun k => k.serial == s) = 1 ∧
    ((issueSerial g2 (some u) (issueSerial g (some u) db).2).1).serialValue
      = some s ∧
    ((issueSerial g (some u) db).1).serialValue = some s := by
  obtain ⟨hne, hserial, hfreshs, reg, hreg, hkey, hdb⟩ :=
    issueSerial_issued_inv g u db s h
  have hreg1 : ((issueSerial g (some u) db).2).registrations.find?
      (fun r => r.robloxUsername == u) = some reg := by
    rw [hdb]; exact hreg
  have hkey1 : ((issueSerial g (some u) db).2).keys.find?
      (fun j => j.registrationId == some reg.id)
      = some ⟨db.nextKeyId, some reg.id, s⟩ := by
    rw [hdb]
    show (db.keys ++ [(⟨db.nextKeyId, some reg.id, s⟩ : SerialKey)]).find? _ = _
    rw [List.find?_append, hkey]
    simp
  have hsecond := issueSerial_existing_key g2 u ((issueSerial g (some u) db).2)
    reg ⟨db.nextKeyId, some reg.id, s⟩ hne hreg1 hkey1
  have hcount : ((issueSerial g (some u) db).2).keys.countP
      (fun k => k.serial == s) = 1 := by
    rw [hdb]
    show (db.keys ++ [(⟨db.nextKeyId, some reg.id, s⟩ : SerialKey)]).countP _ = 1
    rw [List.countP_append]
    have hz : db.keys.countP (fun k => k.serial == s) = 0 := by
      rw [List.countP_eq_zero]
      rw [List.any_eq_false] at hfreshs
      exact hfreshs
    rw [hz]
    simp [List.countP_cons]
  refine ⟨?_, ?_, hcount, ?_, ?_⟩
  · rw [hsecond]
  · rw [hsecond]
  · rw [hsecond]; rfl
  · rw [h]; rfl

/-- C1 amended witness: a concrete registration receives a serial on the
first call and the identical serial value back (inside the 400 response) on
the second, with the state untouched by the second call. -/
theorem issue_twice_returns_same_serial_witness :
    (issueSerial (fun _ => "cd") (some "Player_1")
        (issueSerial (fun _ => "ab") (some "Player_1")
          ⟨[⟨1, "Player_1", "user.name", "testing"⟩], [], 2, 1⟩).2).1
      = .alreadyGenerated "scriptxserial_abab" ∧
    (issueSerial (fun _ => "cd") (some "Player_1")
        (issueSerial (fun _ => "ab") (some "Player_1")
          ⟨[⟨1, "Player_1", "user.name", "testing"⟩], [], 2, 1⟩).2).2
      = (issueSerial (fun _ => "ab") (some "Player_1")
          ⟨[⟨1, "Player_1", "user.name", "testing"⟩], [], 2, 1⟩).2 ∧
    ((issueSerial (fun _ => "ab") (some "Player_1")
        ⟨[⟨1, "Player_1", "user.name", "testing"⟩], [], 2, 1⟩).2).keys.countP
        (fun k => k.serial == "scriptxserial_abab") = 1 ∧
    ((issueSerial (fun _ => "cd") (some "Player_1")
        (issueSerial (fun _ => "ab") (some "Player_1")
          ⟨[⟨1, "Player_1", "user.name", "testing"⟩], [], 2, 1⟩).2).1).serialValue
      = some "scriptxserial_abab" ∧
    ((issueSerial (fun _ => "ab") (some "Player_1")
        ⟨[⟨1, "Player_1", "user.name", "testing"⟩], [], 2, 1⟩).1).serialValue
      = some "scriptxserial_abab" :=
  issue_twice_returns_same_serial (fun _ => "ab") (fun _ => "cd") "Player_1"
    ⟨[⟨1, "Player_1", "user.name", "testing"⟩], [], 2, 1⟩ "scriptxserial_abab"
    (by decide)

/-- C3 counterexample: when the freshly generated serial collides with an
existing row, the handler answers the generic internal error with the state
rolled back — it does not retry with a further draw from the random source:
two oracles that agree on the two consumed draws but would supply different
retry draws produce the same internal-error outcome. -/
theorem duplicate_serial_not_retried_counterexample :
    issueSerial (fun n => if n ≤ 1 then "dup" else "fresh") (some "Player_1")
        ⟨[⟨1, "Player_1", "user.name", "testing"⟩],
         [⟨7, none, "scriptxserial_dupdup"⟩], 2, 8⟩
      = (.internalError,
         ⟨[⟨1, "Player_1", "user.name", "testing"⟩],
          [⟨7, none, "scriptxserial_dupdup"⟩], 2, 8⟩) ∧
    issueSerial (fun n => if n ≤ 1 then "dup" else "other") (some "Player_1")
        ⟨[⟨1, "Player_1", "user.name", "testing"⟩],
         [⟨7, none, "scriptxserial_dupdup"⟩], 2, 8⟩
      = (.internalError,
         ⟨[⟨1, "Player_1", "user.name", "testing"⟩],
          [⟨7, none, "scriptxserial_dupdup"⟩], 2, 8⟩) := by
  decide

/-- C3 amended: a duplicate-serial constraint violation on the insert is not
caught inside the issuance handler: the transaction is rolled back (state
unchanged) and the failure escalates directly to the generic 500
internal-error response, with no retried generation. -/
theorem duplicate_serial_escalates_without_retry (g : Nat → String)
    (u : String) (db : DB) (reg : Registration)
    (hne : u.isEmpty = false)
    (hreg : db.registrations.find? (fun r => r.robloxUsername == u) = some reg)
    (hkey : db.keys.find? (fun j => j.registrationId == some reg.id) = none)
    (hdup : (db.keys.any fun j =>
      j.serial == "scriptxserial_" ++ g 0 ++ g 1) = true) :
    issueSerial g (some u) db = (.internalError, db) ∧
    ((issueSerial g (some u) db).1).status = 500 := by
  have heq : issueSerial g (some u) db = (.internalError, db) := by
    simp [issueSerial, hne, hreg, hkey, hdup]
  exact ⟨heq, by rw [heq]; rfl⟩

/-- C3 amended witness: a concrete colliding generation escalates to the
generic 500 with the state unchanged. -/
theorem duplicate_serial_escalates_without_retry_witness :
    issueSerial (fun _ => "du") (some "Player_1")
        ⟨[⟨1, "Player_1", "user.name", "testing"⟩],
         [⟨7, none, "scriptxserial_dudu"⟩], 2, 8⟩
      = (.internalError,
         ⟨[⟨1, "Player_1", "user.name", "testing"⟩],
          [⟨7, none, "scriptxserial_dudu"⟩], 2, 8⟩) ∧
    ((issueSerial (fun _ => "du") (some "Player_1")
        ⟨[⟨1, "Player_1", "user.name", "testing"⟩],
         [⟨7, none, "scriptxserial_dudu"⟩], 2, 8⟩).1).status = 500 :=
  duplicate_serial_escalates_without_retry (fun _ => "du") "Player_1"
    ⟨[⟨1, "Player_1", "user.name", "testing"⟩],
     [⟨7, none, "scriptxserial_dudu"⟩], 2, 8⟩
    ⟨1, "Player_1", "user.name", "testing"⟩
    (by decide) (by decide) (by decide) (by decide)

/-- C5: invariant I1 — at most one key row per non-null registration id — is
preserved by every state-changing operation: issuance inserts a linked key
only after finding none for the locked registration, the unlinked-save path
inserts only keys with a null registration reference, and registration
creation does not touch the key table.  (The check-serial and
validate-download handlers are read-only by type: they return no state.) -/
theorem operations_preserve_invariantI1 (g : Nat → String)
    (u rb dc rs serial : Option String) (db : DB)
    (h : invariantI1 db) :
    invariantI1 (issueSerial g u db).2 ∧
    invariantI1 (saveSerial serial db).2 ∧
    invariantI1 (validateUsers rb dc rs db).2 ∧
    ((saveSerial serial db).1).savedKey.all
      (fun k => k.registrationId == none) = true := by
  refine ⟨?_, ?_, ?_, ?_⟩
  · cases u with
    | none => exact h
    | some s =>
      by_cases hs : s.isEmpty = true
      · simpa [issueSerial, hs] using h
      · cases hreg : db.registrations.find? (fun r => r.robloxUsername == s) with
        | none => simpa [issueSerial, hs, hreg] using h
        | some reg =>
          cases hkey : db.keys.find?
              (fun j => j.registrationId == some reg.id) with
          | some k => simpa [issueSerial, hs, hreg, hkey] using h
          | none =>
            by_cases hdup :
                (db.keys.any fun j =>
                  j.serial == "scriptxserial_" ++ g 0 ++ g 1) = true
            · simpa [issueSerial, hs, hreg, hkey, hdup] using h
            · have hstate : (issueSerial g (some s) db).2 =
                  { db with
                    keys := db.keys ++
                        [⟨db.nextKeyId, some reg.id,
                          "scriptxserial_" ++ g 0 ++ g 1⟩],
                    nextKeyId := db.nextKeyId + 1 } := by
                simp [issueSerial, hs, hreg, hkey, hdup]
              rw [hstate]
              intro rid
              show (db.keys ++ [(⟨db.nextKeyId, some reg.id,
                "scriptxserial_" ++ g 0 ++ g 1⟩ : SerialKey)]).countP
                  (fun k => k.registrationId == some rid) ≤ 1
              rw [List.countP_append]
              by_cases hr : reg.id = rid
              · subst hr
                have hz : db.keys.countP
                    (fun k => k.registrationId == some reg.id) = 0 := by
                  rw [List.countP_eq_zero]
                  rw [List.find?_eq_none] at hkey
                  exact hkey
                rw [hz]
                simp [List.countP_cons]
              · have hone : ([(⟨db.nextKeyId, some reg.id,
                    "scriptxserial_" ++ g 0 ++ g 1⟩ : SerialKey)]).countP
                      (fun k => k.registrationId == some rid) = 0 := by
                  simp [List.countP_cons, hr]
                rw [hone]
                have := h rid
                omega
  · cases serial with
    | none => exact h
    | some s =>
      by_cases hs : s.isEmpty = true
      · simpa [saveSerial, hs] using h
      · by_cases hdup : (db.keys.any fun j => j.serial == s) = true
        · simpa [saveSerial, hs, hdup] using h
        · have hstate : (saveSerial (some s) db).2 =
              { db with
                keys := db.keys ++ [⟨db.nextKeyId, none, s⟩],
                nextKeyId := db.nextKeyId + 1 } := by
            simp [saveSerial, hs, hdup]
          rw [hstate]
          intro rid
          show (db.keys ++ [(⟨db.nextKeyId, none, s⟩ : SerialKey)]).countP
              (fun k => k.registrationId == some rid) ≤ 1
          rw [List.countP_append]
          have hone : ([(⟨db.nextKeyId, none, s⟩ : SerialKey)]).countP
              (fun k => k.registrationId == some rid) = 0 := by
            simp [List.countP_cons]
          rw [hone]
          have := h rid
          omega
  · by_cases hm : (isMissing rb || isMissing dc || isMissing rs) = true
    · simpa [validateUsers, hm] using h
    · by_cases hv : (!validateRobloxUser (rb.getD "") ||
          !validateDiscordUser (dc.getD "")) = true
      · simpa [validateUsers, hm, hv] using h
      · have hstate : (validateUsers rb dc rs db).2 =
            { db with
              registrations := db.registrations ++
                  [⟨db.nextRegId, rb.getD "", dc.getD "", rs.getD ""⟩],
              nextRegId := db.nextRegId + 1 } := by
          simp [validateUsers, hm, hv]
        rw [hstate]
        intro rid
        exact h rid
  · cases serial with
    | none => rfl
    | some s =>
      by_cases hs : s.isEmpty = true
      · simp [saveSerial, hs, SaveResult.savedKey]
      · by_cases hdup : (db.keys.any fun j => j.serial == s) = true
        · simp [saveSerial, hs, hdup, SaveResult.savedKey]
        · simp [saveSerial, hs, hdup, SaveResult.savedKey]

/-- C5 witness: a concrete state satisfying I1 still satisfies it after a
concrete run of each operation, and a concretely saved unlinked key carries
a null registration reference. -/
theorem operations_preserve_invariantI1_witness :
    invariantI1 (issueSerial (fun _ => "ab") (some "Player_1")
      ⟨[⟨1, "Player_1", "user.name", "t"⟩], [⟨1, some 1, "k0"⟩], 2, 2⟩).2 ∧
    invariantI1 (saveSerial (some "sx")
      ⟨[⟨1, "Player_1", "user.name", "t"⟩], [⟨1, some 1, "k0"⟩], 2, 2⟩).2 ∧
    invariantI1 (validateUsers (some "Player_2") (some "user.name") (some "t")
      ⟨[⟨1, "Player_1", "user.name", "t"⟩], [⟨1, some 1, "k0"⟩], 2, 2⟩).2 ∧
    ((saveSerial (some "sx")
      ⟨[⟨1, "Player_1", "user.name", "t"⟩], [⟨1, some 1, "k0"⟩], 2, 2⟩).1).savedKey.all
      (fun k => k.registrationId == none) = true :=
  operations_preserve_invariantI1 (fun _ => "ab") (some "Player_1")
    (some "Player_2") (some "user.name") (some "t") (some "sx")
    ⟨[⟨1, "Player_1", "user.name", "t"⟩], [⟨1, some 1, "k0"⟩], 2, 2⟩
    (by decide)

theorem runIssuance_all_existing (gens : List (Nat → String)) (u : String)
    (db : DB) (reg : Registration) (k : SerialKey)
    (hne : u.isEmpty = false)
    (hreg : db.registrations.find? (fun r => r.robloxUsername == u) = some reg)
    (hkey : db.keys.find? (fun j => j.registrationId == some reg.id) = some k) :
    runIssuance gens (some u) db
      = (List.replicate gens.length (.alreadyGenerated k.serial), db) := by
  induction gens with
  | nil => rfl
  | cons g rest ih =>
    have hstep := issueSerial_existing_key g u db reg k hne hreg hkey
    simp [runIssuance, hstep, ih, List.replicate_succ]

/-- C2: under the row-level FOR UPDATE lock the N concurrent issuance
requests for one registration execute as some sequential order; for a
registration that exists and has no key yet, any such order leaves exactly
one persisted key row for that registration, every response carries that
same serial value in its body, and exactly one request observes no existing
key and performs the insert (the success response). -/
theorem concurrent_issuance_single_key (g : Nat → String)
    (gens : List (Nat → String)) (u : String) (db : DB) (reg : Registration)
    (hne : u.isEmpty = false)
    (hreg : db.registrations.find? (fun r => r.robloxUsername == u) = some reg)
    (hkey : db.keys.find? (fun j => j.registrationId == some reg.id) = none)
    (hfresh : (db.keys.any fun j =>
      j.serial == "scriptxserial_" ++ g 0 ++ g 1) = false) :
    ((runIssuance (g :: gens) (some u) db).2).keys.countP
        (fun k => k.registrationId == some reg.id) = 1 ∧
    ((runIssuance (g :: gens) (some u) db).1).all
        (fun r => r.serialValue == some ("scriptxserial_" ++ g 0 ++ g 1))
      = true ∧
    ((runIssuance (g :: gens) (some u) db).1).countP
        (fun r => r.isSuccess) = 1 := by
  have hfirst := issueSerial_fresh_key g u db reg hne hreg hkey hfresh
  have hkey1 : (db.keys ++ [(⟨db.nextKeyId, some reg.id,
      "scriptxserial_" ++ g 0 ++ g 1⟩ : SerialKey)]).find?
        (fun j => j.registrationId == some reg.id)
      = some ⟨db.nextKeyId, some reg.id, "scriptxserial_" ++ g 0 ++ g 1⟩ := by
    rw [List.find?_append, hkey]
    simp
  have hrest := runIssuance_all_existing gens u
    { db with
      keys := db.keys ++
          [⟨db.nextKeyId, some reg.id, "scriptxserial_" ++ g 0 ++ g 1⟩],
      nextKeyId := db.nextKeyId + 1 }
    reg ⟨db.nextKeyId, some reg.id, "scriptxserial_" ++ g 0 ++ g 1⟩
    hne hreg hkey1
  have hrun : runIssuance (g :: gens) (some u) db =
      ((.issued ("scriptxserial_" ++ g 0 ++ g 1)) ::
        List.replicate gens.length
          (.alreadyGenerated ("scriptxserial_" ++ g 0 ++ g 1)),
       { db with
         keys := db.keys ++
             [⟨db.nextKeyId, some reg.id, "scriptxserial_" ++ g 0 ++ g 1⟩],
         nextKeyId := db.nextKeyId + 1 }) := by
    simp only [runIssuance, hfirst, hrest]
  have hz : db.keys.countP (fun j => j.registrationId == some reg.id) = 0 := by
    rw [List.countP_eq_zero]
    rw [List.find?_eq_none] at hkey
    exact hkey
  refine ⟨?_, ?_, ?_⟩
  · rw [hrun]
    show (db.keys ++ [(⟨db.nextKeyId, some reg.id,
        "scriptxserial_" ++ g 0 ++ g 1⟩ : SerialKey)]).countP
        (fun k => k.registrationId == some reg.id) = 1
    rw [List.countP_append, hz]
    simp [List.countP_cons]
  · rw [hrun]
    rw [List.all_eq_true]
    intro r hr
    rcases List.mem_cons.mp hr with h1 | h2
    · subst h1
      simp [IssueResult.serialValue]
    · rw [(List.mem_replicate.mp h2).2]
      simp [IssueResult.serialValue]
  · rw [hrun]
    rw [List.countP_cons, List.countP_replicate]
    simp [IssueResult.isSuccess]

/-- C2 witness: two sequentialized issuance calls on a concrete fresh
registration leave one key row and both responses carry the same serial. -/
theorem concurrent_issuance_single_key_witness :
    ((runIssuance ((fun _ => "ab") :: [fun _ => "cd"]) (some "Player_1")
        ⟨[⟨1, "Player_1", "user.name", "t"⟩], [], 2, 1⟩).2).keys.countP
        (fun k => k.registrationId == some 1) = 1 ∧
    ((runIssuance ((fun _ => "ab") :: [fun _ => "cd"]) (some "Player_1")
        ⟨[⟨1, "Player_1", "user.name", "t"⟩], [], 2, 1⟩).1).all
        (fun r => r.serialValue == some "scriptxserial_abab") = true ∧
    ((runIssuance ((fun _ => "ab") :: [fun _ => "cd"]) (some "Player_1")
        ⟨[⟨1, "Player_1", "user.name", "t"⟩], [], 2, 1⟩).1).countP
        (fun r => r.isSuccess) = 1 :=
  concurrent_issuance_single_key (fun _ => "ab") [fun _ => "cd"] "Player_1"
    ⟨[⟨1, "Player_1", "user.name", "t"⟩], [], 2, 1⟩
    ⟨1, "Player_1", "user.name", "t"⟩
    (by decide) (by decide) (by decide) (by decide)
